import Mathlib

/-!
Shallow embedding of `src/julia-fractal.py` (the escape-time fractal GTK
application).  Real-valued quantities are modelled by `ℚ`, complex numbers
by the pair structure `Cx`, and the mutable attributes of the `App` object
by the record `AppState`.  Each GTK signal handler becomes a function
`AppState → AppState × ℕ` whose second component counts how many times the
handler runs `display_image` (one whole-grid fractal evaluation followed by
a redraw) during its execution.
-/

set_option maxRecDepth 10000

set_option allowUnsafeReducibility true

attribute [local semireducible] Rat.add Rat.mul Rat.inv Rat.sub

/-- Complex number as a pair of rationals, modelling Python `complex`
(`complex128` in the numba signatures). -/
structure Cx where
  re : ℚ
  im : ℚ
deriving DecidableEq

/-- Complex addition. -/
def Cx.add (a b : Cx) : Cx := ⟨a.re + b.re, a.im + b.im⟩

/-- Complex multiplication. -/
def Cx.mul (a b : Cx) : Cx := ⟨a.re * b.re - a.im * b.im, a.re * b.im + a.im * b.re⟩

/-- Complex one, the base case of integer powers. -/
def Cx.one : Cx := ⟨1, 0⟩

/-- Integer power `pow(z, n)` for a natural exponent (the source assumes the
exponent `n` is a positive integer, per the caller contract). -/
def Cx.pow (z : Cx) : ℕ → Cx
  | 0 => Cx.one
  | k + 1 => (Cx.pow z k).mul z

/-- Squared magnitude exactly as written in the source's bailout test:
`z.imag**2 + z.real**2`. -/
def Cx.abs2 (z : Cx) : ℚ := z.im ^ 2 + z.re ^ 2

/-- The body of `iterate`'s `for k in range(niter)` loop (source lines 44-48).
`z` is the current value, `k` the index of the iteration about to run, and
`r` the number of iterations still to run (so `r = niter - k` at entry).
Each iteration sets `z = pow(z, n) + C`; if the bailout test
`z.imag**2 + z.real**2 > zmax2` fires, the loop breaks and `k` is the result;
if the loop exhausts its range the result is the last index examined. -/
def iterLoop (C : Cx) (n : ℕ) (zmax2 : ℚ) : Cx → ℕ → ℕ → ℕ
  | _, k, 0 => k
  | z, k, r + 1 =>
    let z2 := Cx.add (Cx.pow z n) C
    if zmax2 < Cx.abs2 z2 then k
    else if r = 0 then k
    else iterLoop C n zmax2 z2 (k + 1) r

/-- `iterate(z, C, n, zmax, niter)` (source lines 36-50).  The function
returns the loop variable `k` after the loop; when `niter <= 0` the loop body
never runs, `k` is unbound and the `return k` statement raises `NameError`,
which we model as `none`. -/
def iterate (z C : Cx) (n : ℕ) (zmax : ℚ) (niter : ℤ) : Option ℕ :=
  if niter ≤ 0 then none
  else some (iterLoop C n (zmax ^ 2) z 0 niter.toNat)

/-- Orbit of the iteration `z -> z^n + C`: `orbit z C n j` is the value of `z`
after `j` applications of the update rule starting from `z`. -/
def orbit (z C : Cx) (n : ℕ) : ℕ → Cx
  | 0 => z
  | j + 1 => Cx.add (Cx.pow (orbit z C n j) n) C

/-- `np.interp(xp, [x1, x2], [y1, y2])`: clamped linear interpolation, used by
the source for every pixel-to-plane conversion. -/
def np_interp (xp x1 x2 y1 y2 : ℚ) : ℚ :=
  if xp ≤ x1 then y1
  else if x2 ≤ xp then y2
  else y1 + (xp - x1) * (y2 - y1) / (x2 - x1)

/-- Sample `i` of `np.linspace(a, b, num)`: `a + i*(b-a)/(num-1)`
(for `num ≥ 2`; for `num = 1` the rational division by zero yields `a`,
matching `np.linspace(a, b, 1) = [a]`). -/
def linspaceVal (a b : ℚ) (num i : ℕ) : ℚ := a + i * (b - a) / ((num : ℚ) - 1)

/-- `complex_grid(xlim, ylim, nx, ny)` (source lines 24-33): `meshgrid` of the
two `linspace`s combined as `xx + 1j*yy`, so the entry in row `j`, column `i`
is `x[i] + 1j * y[j]`. -/
def complex_grid (xlim ylim : ℚ × ℚ) (nx ny : ℕ) : List (List Cx) :=
  (List.range ny).map fun j => (List.range nx).map fun i =>
    Cx.mk (linspaceVal xlim.1 xlim.2 nx i) (linspaceVal ylim.1 ylim.2 ny j)

/-- The vectorized ufunc `fractal` (source lines 53-56) applied to a grid
first argument and a scalar second argument: numpy broadcasting computes
`iterate(g, C, n, zmax, niter)` at every grid entry `g`. -/
def fractal_grid_scalar (zz : List (List Cx)) (C : Cx) (n : ℕ) (zmax : ℚ)
    (niter : ℤ) : List (List (Option ℕ)) :=
  zz.map (List.map fun g => iterate g C n zmax niter)

/-- The vectorized ufunc `fractal` applied to a scalar first argument and a
grid second argument: numpy broadcasting computes
`iterate(C, g, n, zmax, niter)` at every grid entry `g`. -/
def fractal_scalar_grid (C : Cx) (zz : List (List Cx)) (n : ℕ) (zmax : ℚ)
    (niter : ℤ) : List (List (Option ℕ)) :=
  zz.map (List.map fun g => iterate C g n zmax niter)

/-- The eleven named entry fields of the application, in the order the
`entries` dict is populated. -/
inductive EntryName
  | n | x | y | zmax | niter | xmin | xmax | ymin | ymax | xsize | ysize
deriving DecidableEq

/-- Whether `update_image` parses the field as `int`
(`name in ['n', 'niter', 'xsize', 'ysize']`). -/
def isIntEntry : EntryName → Bool
  | .n => true
  | .niter => true
  | .xsize => true
  | .ysize => true
  | _ => false

/-- The mutable attributes of the `App` object that the modelled handlers
read and write: the eleven parameter fields, the text shown in each
`Gtk.Entry`, the startup-defaults snapshot, the active fractal name of the
combo box, the colormap name, and the selection-gesture plane coordinates. -/
structure AppState where
  value : EntryName → ℚ
  text : EntryName → String
  defaultVal : EntryName → ℚ
  mode : String
  cmap : String
  posx1 : ℚ
  posy1 : ℚ
  posx2 : ℚ
  posy2 : ℚ

/-- Overwrite one stored parameter field (`setattr(self, name, v)`). -/
def setVal (s : AppState) (f : EntryName) (v : ℚ) : AppState :=
  { s with value := fun g => if g = f then v else s.value g }

/-- Overwrite one entry's displayed text (`entry.set_text(t)`). -/
def setText (s : AppState) (f : EntryName) (t : String) : AppState :=
  { s with text := fun g => if g = f then t else s.text g }

/-- Digit string to natural number. -/
def digitsVal (l : List Char) : ℕ :=
  l.foldl (fun a c => 10 * a + (c.toNat - 48)) 0

/-- Leading sign of a numeric literal: `true` means negative. -/
def splitSign : List Char → Bool × List Char
  | '-' :: cs => (true, cs)
  | '+' :: cs => (false, cs)
  | cs => (false, cs)

/-- Mantissa of a float literal: digits, optionally with one decimal point,
needing at least one digit overall. -/
def parseMantissa (cs : List Char) : Option ℚ :=
  let ipart := cs.takeWhile Char.isDigit
  let rest := cs.dropWhile Char.isDigit
  match rest with
  | [] => if ipart.isEmpty then none else some ((digitsVal ipart : ℕ) : ℚ)
  | '.' :: rest2 =>
    let fpart := rest2.takeWhile Char.isDigit
    let rest3 := rest2.dropWhile Char.isDigit
    if rest3.isEmpty then
      if ipart.isEmpty && fpart.isEmpty then none
      else some ((digitsVal ipart : ℚ) + (digitsVal fpart : ℚ) / (10 : ℚ) ^ fpart.length)
    else none
  | _ => none

/-- Modelled from the spec: the Python builtin `float(text)` used by
`get_entry_value` (the builtin itself is not repository code).  Accepts an
optional sign, a digits/decimal-point mantissa and an optional exponent part,
returning `none` exactly when the text is not numeric (`ValueError`).
Binary floating point is idealised as exact rational arithmetic. -/
def pyFloat (s : String) : Option ℚ :=
  let cs := s.toList
  let (neg, cs1) := splitSign cs
  let mant := cs1.takeWhile fun c => c != 'e' && c != 'E'
  let rest := cs1.dropWhile fun c => c != 'e' && c != 'E'
  let base :=
    match rest with
    | [] => parseMantissa mant
    | _ :: ecs =>
      let (eneg, ecs1) := splitSign ecs
      if ecs1.isEmpty || !(ecs1.all Char.isDigit) then none
      else
        match parseMantissa mant with
        | none => none
        | some m =>
          let e := digitsVal ecs1
          some (if eneg then m / (10 : ℚ) ^ e else m * (10 : ℚ) ^ e)
  match base with
  | none => none
  | some v => some (if neg then -v else v)

/-- Truncation toward zero, modelling the Python builtin `int(val)` applied
to a parsed float. -/
def truncQ (q : ℚ) : ℤ := if q < 0 then -⌊-q⌋ else ⌊q⌋

/-- `get_entry_value(entry, dtype)` (source lines 278-288) applied to the
entry's current text: `float(text)`, then truncated by `int(...)` when the
dtype is `int`; a `ValueError` from `float` yields `None`. -/
def get_entry_value (text : String) (isInt : Bool) : Option ℚ :=
  match pyFloat text with
  | none => none
  | some v => some (if isInt then (truncQ v : ℤ) else v)

/-- Zero-padded fixed-width decimal digit list of a natural number. -/
def natDigitsPadded (m width : ℕ) : List Char :=
  let ds := (toString m).toList
  List.replicate (width - ds.length) '0' ++ ds

/-- Remove trailing `'0'` characters, modelling Python's `rstrip("0")` (the
decimal point always present in the fixed-point output stops the strip from
reaching the integer part). -/
def stripTrailingZeros (l : List Char) : List Char :=
  (l.reverse.dropWhile fun c => c == '0').reverse

/-- Modelled from the spec: the formatting in `set_entry_value` (source lines
265-275).  An integer value is printed as its plain decimal string
(`"{0}".format(value)`); otherwise the value is printed with `digits = 12`
decimal places and trailing zeros stripped
(`"{0:.{1}f}".format(value, 12).rstrip("0")`).  Rounding of the binary float
is idealised as round-half-up on the exact rational. -/
def pyFormat (q : ℚ) : String :=
  if q.den = 1 then toString q.num
  else
    let sgn := if q < 0 then "-" else ""
    let a : ℚ := if q < 0 then -q else q
    let scaled : ℤ := ⌊a * 10 ^ 12 + 1 / 2⌋
    let ip := scaled / 10 ^ 12
    let fp := scaled % 10 ^ 12
    let fracStr := String.mk (stripTrailingZeros (natDigitsPadded fp.toNat 12))
    sgn ++ toString ip ++ "." ++ fracStr

/-- `set_entry_value(entry)` for a named entry: display the formatted current
value of the field with the entry's name. -/
def set_entry_value (s : AppState) (f : EntryName) : AppState :=
  setText s f (pyFormat (s.value f))

/-- The first loop of `update_image` (source lines 460-465): each entry's text
is parsed with its dtype and, when the parse succeeds, stored into the field
of the same name; a failed parse leaves the field untouched.  The fields are
distinct attributes and the loop reads only the (unmodified) texts, so the
loop denotes this pointwise update. -/
def update_values (s : AppState) : AppState :=
  { s with value := fun f =>
      match get_entry_value (s.text f) (isIntEntry f) with
      | none => s.value f
      | some v => v }

/-- The second loop of `update_image` (source lines 467-468): every entry's
text is rewritten from the current field values. -/
def set_all_texts (s : AppState) : AppState :=
  { s with text := fun f => pyFormat (s.value f) }

/-- `display_image` (source lines 437-455): evaluates `compute_image` over the
current grid once and hands the matrix to matplotlib.  The rendering itself is
external; the returned count records the single whole-grid evaluation. -/
def display_image (s : AppState) : AppState × ℕ := (s, 1)

/-- `update_image` (source lines 458-471): re-parse every entry, re-display
every entry, then recompute and redraw the image. -/
def update_image (s : AppState) : AppState × ℕ :=
  display_image (set_all_texts (update_values s))

/-- `on_button_apply_clicked` (source lines 322-324). -/
def on_button_apply_clicked (s : AppState) : AppState × ℕ := update_image s

/-- `on_button_reset_clicked` (source lines 326-330): restore every field from
its `*_default` snapshot and redisplay the entry texts.  The handler does not
call `update_image` or `display_image`, so no fractal evaluation happens. -/
def on_button_reset_clicked (s : AppState) : AppState × ℕ :=
  ({ s with value := fun f => s.defaultVal f
          , text := fun f => pyFormat (s.defaultVal f) }, 0)

/-- `on_namecombo_changed` (source lines 308-319): when the newly selected
text is `Mandelbrot`, zero the `x` and `y` fields and redisplay their entries;
then (the figure exists after setup) run `update_image`. -/
def on_namecombo_changed (s : AppState) (t : String) : AppState × ℕ :=
  let s0 := { s with mode := t }
  let s1 :=
    if t = "Mandelbrot" then
      set_entry_value (set_entry_value (setVal (setVal s0 .x 0) .y 0) .x) .y
    else s0
  update_image s1

/-- `on_cmapcombo_changed` (source lines 295-305): store the selected colormap
name and re-render (one `display_image` call). -/
def on_cmapcombo_changed (s : AppState) (t : String) : AppState × ℕ :=
  display_image { s with cmap := t }

/-- Pixel-to-plane conversion on the x axis,
`np.interp(px, [0, xsize-1], [xmin, xmax])`. -/
def pixel_to_plane_x (s : AppState) (ex : ℚ) : ℚ :=
  np_interp ex 0 (s.value .xsize - 1) (s.value .xmin) (s.value .xmax)

/-- Pixel-to-plane conversion on the y axis,
`np.interp(py, [0, ysize-1], [ymin, ymax])`. -/
def pixel_to_plane_y (s : AppState) (ey : ℚ) : ℚ :=
  np_interp ey 0 (s.value .ysize - 1) (s.value .ymin) (s.value .ymax)

/-- `on_canvas_button_press` (source lines 398-404): record the anchor plane
coordinate and initialise the current coordinate to it. -/
def on_canvas_button_press (s : AppState) (ex ey : ℚ) : AppState × ℕ :=
  let px := pixel_to_plane_x s ex
  let py := pixel_to_plane_y s ey
  ({ s with posx1 := px, posy1 := py, posx2 := px, posy2 := py }, 0)

/-- `on_canvas_motion_notify` (source lines 369-394): update the current plane
coordinate; with the control modifier held during a button drag, constrain
`posy2 = posy1 + posx2 - posx1`.  The preview rectangles are drawing-only. -/
def on_canvas_motion_notify (s : AppState) (ex ey : ℚ)
    (buttonPressed ctrlHeld : Bool) : AppState × ℕ :=
  let s1 := { s with posx2 := pixel_to_plane_x s ex, posy2 := pixel_to_plane_y s ey }
  let s2 :=
    if buttonPressed && ctrlHeld then { s1 with posy2 := s1.posy1 + s1.posx2 - s1.posx1 }
    else s1
  (s2, 0)

/-- The viewport update of `on_canvas_button_release` (source lines 336-360):
for button 1 or 3, a zero drag (`(posx1, posy1) == (posx2, posy2)`) zooms by
factor `0.75` (button 1) or `1.5` (button 3) about the release point's plane
coordinate, while a non-zero drag assigns
`xmin, xmax, ymin, ymax = posx1, posx2, posy1, posy2` directly. -/
def release_bounds (s : AppState) (button : ℕ) (ex ey : ℚ) : AppState :=
  if button = 1 ∨ button = 3 then
    if s.posx1 = s.posx2 ∧ s.posy1 = s.posy2 then
      let factor : ℚ := if button = 1 then 3 / 4 else 3 / 2
      let xc := pixel_to_plane_x s ex
      let yc := pixel_to_plane_y s ey
      let xlen := factor * (s.value .xmax - s.value .xmin)
      let ylen := factor * (s.value .ymax - s.value .ymin)
      setVal (setVal (setVal (setVal s .xmin (xc - xlen / 2)) .xmax (xc + xlen / 2))
        .ymin (yc - ylen / 2)) .ymax (yc + ylen / 2)
    else
      setVal (setVal (setVal (setVal s .xmin s.posx1) .xmax s.posx2) .ymin s.posy1)
        .ymax s.posy2
  else s

/-- `on_canvas_button_release` (source lines 334-366): update the viewport per
`release_bounds`, redisplay every entry when a recognised button was used, and
unconditionally run `update_image`. -/
def on_canvas_button_release (s : AppState) (button : ℕ) (ex ey : ℚ) : AppState × ℕ :=
  let s1 := release_bounds s button ex ey
  let s2 := if button = 1 ∨ button = 3 then set_all_texts s1 else s1
  update_image s2

/-- `C = complex(self.x, self.y)` in `compute_image`. -/
def Cparam (s : AppState) : Cx := ⟨s.value .x, s.value .y⟩

/-- Integer value of a field that the source stores as a Python `int`. -/
def qint (q : ℚ) : ℤ := truncQ q

/-- Natural-number value of a nonnegative integer field. -/
def qnat (q : ℚ) : ℕ := (truncQ q).toNat

/-- The sample grid `compute_image` builds from the current bounds and sizes
(source lines 426-429). -/
def gridOf (s : AppState) : List (List Cx) :=
  complex_grid (s.value .xmin, s.value .xmax) (s.value .ymin, s.value .ymax)
    (qnat (s.value .xsize)) (qnat (s.value .ysize))

/-- `compute_image` (source lines 424-435): build the grid, then dispatch on
the combo text --- `fractal(zz, C, ...)` for Julia, `fractal(C, zz, ...)` for
Mandelbrot, and an implicit `None` for any other text. -/
def compute_image (s : AppState) : Option (List (List (Option ℕ))) :=
  if s.mode = "Julia" then
    some (fractal_grid_scalar (gridOf s) (Cparam s) (qnat (s.value .n))
      (s.value .zmax) (qint (s.value .niter)))
  else if s.mode = "Mandelbrot" then
    some (fractal_scalar_grid (Cparam s) (gridOf s) (qnat (s.value .n))
      (s.value .zmax) (qint (s.value .niter)))
  else none

/-- The capture of startup defaults in `setup_interface` (source lines
120-123): snapshot every field into its `*_default` attribute and display
every entry. -/
def capture_defaults (s : AppState) : AppState :=
  { s with defaultVal := s.value, text := fun f => pyFormat (s.value f) }

/-- One user-interface event, pre-translated by GTK: editing an entry's text,
the Apply and Reset buttons, the two combo boxes, and the three pointer
signals. -/
inductive UIEvent
  | edit (f : EntryName) (t : String)
  | apply
  | reset
  | modeChange (t : String)
  | cmapChange (t : String)
  | press (ex ey : ℚ)
  | motion (ex ey : ℚ) (buttonPressed ctrlHeld : Bool)
  | release (button : ℕ) (ex ey : ℚ)

/-- Dispatch one event to its handler (typing in an entry only changes the
widget text; everything else runs the connected handler). -/
def step (s : AppState) : UIEvent → AppState
  | .edit f t => setText s f t
  | .apply => (on_button_apply_clicked s).1
  | .reset => (on_button_reset_clicked s).1
  | .modeChange t => (on_namecombo_changed s t).1
  | .cmapChange t => (on_cmapcombo_changed s t).1
  | .press ex ey => (on_canvas_button_press s ex ey).1
  | .motion ex ey p c => (on_canvas_motion_notify s ex ey p c).1
  | .release b ex ey => (on_canvas_button_release s b ex ey).1

/-- Run a sequence of events. -/
def run (s : AppState) (evs : List UIEvent) : AppState :=
  evs.foldl step s

/-- The startup values assigned in `App.__init__` (source lines 62-78). -/
def initValues : EntryName → ℚ
  | .n => 2
  | .x => -2 / 5
  | .y => 3 / 5
  | .zmax => 4
  | .niter => 256
  | .xmin => -3 / 2
  | .xmax => 3 / 2
  | .ymin => -3 / 2
  | .ymax => 3 / 2
  | .xsize => 600
  | .ysize => 600

/-- The application state right after `setup_interface`: defaults captured,
entries displayed, Julia mode active, no gesture in progress. -/
def baseState : AppState :=
  { value := initValues
    text := fun f => pyFormat (initValues f)
    defaultVal := initValues
    mode := "Julia"
    cmap := "Set3"
    posx1 := 0
    posy1 := 0
    posx2 := 0
    posy2 := 0 }

/-- A state with a tiny 2-by-2 grid and a single iteration, for concrete
evaluation of `compute_image`. -/
def smallValues : EntryName → ℚ
  | .n => 2
  | .x => 0
  | .y => 0
  | .zmax => 4
  | .niter => 1
  | .xmin => -1
  | .xmax => 1
  | .ymin => -1
  | .ymax => 1
  | .xsize => 2
  | .ysize => 2

/-- `baseState` with the tiny grid parameters installed. -/
def smallState : AppState := { baseState with value := smallValues }

/-- The matrix `compute_image` produces on `smallState`. -/
def smallImg : List (List (Option ℕ)) :=
  [[some 0, some 0], [some 0, some 0]]

/-- A state in mid-gesture after a drag from plane point `(1, 1)` to plane
point `(0, 0)` (anchor at the larger coordinates). -/
def dragState : AppState :=
  { baseState with posx1 := 1, posy1 := 1, posx2 := 0, posy2 := 0 }

/-! ## Theorems -/

theorem iterLoop_succ (C : Cx) (n : ℕ) (zmax2 : ℚ) (z : Cx) (k r : ℕ) :
    iterLoop C n zmax2 z k (r + 1) =
      if zmax2 < Cx.abs2 (Cx.add (Cx.pow z n) C) then k
      else if r = 0 then k
      else iterLoop C n zmax2 (Cx.add (Cx.pow z n) C) (k + 1) r := rfl

theorem orbit_succ (z C : Cx) (n j : ℕ) :
    orbit z C n (j + 1) = Cx.add (Cx.pow (orbit z C n j) n) C := rfl

theorem iterLoop_orbit (z C : Cx) (n : ℕ) (zmax2 : ℚ) :
    ∀ m k R : ℕ, iterLoop C n zmax2 (orbit z C n k) k (m + 1) = R →
      k ≤ R ∧ R ≤ k + m ∧
      (∀ j, k ≤ j → j < R → Cx.abs2 (orbit z C n (j + 1)) ≤ zmax2) ∧
      (zmax2 < Cx.abs2 (orbit z C n (R + 1)) ∨ R = k + m) := by
  intro m
  induction m with
  | zero =>
    intro k R hR
    rw [iterLoop_succ, ← orbit_succ] at hR
    by_cases h : zmax2 < Cx.abs2 (orbit z C n (k + 1))
    · rw [if_pos h] at hR
      subst hR
      exact ⟨le_refl _, by omega, fun j h1 h2 => absurd (lt_of_le_of_lt h1 h2) (lt_irrefl _),
        Or.inl h⟩
    · rw [if_neg h, if_pos rfl] at hR
      subst hR
      exact ⟨le_refl _, by omega, fun j h1 h2 => absurd (lt_of_le_of_lt h1 h2) (lt_irrefl _),
        Or.inr (by omega)⟩
  | succ m ih =>
    intro k R hR
    rw [iterLoop_succ, ← orbit_succ] at hR
    by_cases h : zmax2 < Cx.abs2 (orbit z C n (k + 1))
    · rw [if_pos h] at hR
      subst hR
      exact ⟨le_refl _, by omega, fun j h1 h2 => absurd (lt_of_le_of_lt h1 h2) (lt_irrefl _),
        Or.inl h⟩
    · rw [if_neg h, if_neg (Nat.succ_ne_zero m)] at hR
      obtain ⟨h1, h2, h3, h4⟩ := ih (k + 1) R hR
      refine ⟨by omega, by omega, fun j hj1 hj2 => ?_, ?_⟩
      · rcases Nat.eq_or_lt_of_le hj1 with hj | hj
        · subst hj
          exact le_of_not_lt h
        · exact h3 j hj hj2
      · rcases h4 with h4 | h4
        · exact Or.inl h4
        · exact Or.inr (by omega)

/-- C1: for every starting value, constant, exponent, bailout radius and
positive iteration cap, `iterate` returns an index `R` with `0 ≤ R ≤ niter-1`
such that no earlier index escapes (every iterate up to the `R`-th
application stays within the bailout) and either the `(R+1)`-th application
escapes or `R = niter - 1`; this pins `R` as the smallest index whose
`(R+1)`-th application exceeds `zmax^2`, with `niter - 1` returned when no
index in `[0, niter-1]` escapes.  In particular
`iterate(0+0i, 0+0i, 2, 4, 256) = 255`. -/
theorem iterate_escape_characterisation :
    (∀ (z C : Cx) (n : ℕ) (zmax : ℚ) (niter : ℤ), 1 ≤ niter →
      ∃ R : ℕ, iterate z C n zmax niter = some R ∧
        (R : ℤ) ≤ niter - 1 ∧
        (∀ j : ℕ, j < R → Cx.abs2 (orbit z C n (j + 1)) ≤ zmax ^ 2) ∧
        (zmax ^ 2 < Cx.abs2 (orbit z C n (R + 1)) ∨ (R : ℤ) = niter - 1)) ∧
    iterate ⟨0, 0⟩ ⟨0, 0⟩ 2 4 256 = some 255 := by
  constructor
  · intro z C n zmax niter hn
    obtain ⟨m, hm⟩ : ∃ m, niter.toNat = m + 1 := ⟨niter.toNat - 1, by omega⟩
    have h0 : iterLoop C n (zmax ^ 2) (orbit z C n 0) 0 (m + 1) =
        iterLoop C n (zmax ^ 2) z 0 (m + 1) := rfl
    obtain ⟨h1, h2, h3, h4⟩ := iterLoop_orbit z C n (zmax ^ 2) m 0 _ h0
    refine ⟨iterLoop C n (zmax ^ 2) z 0 (m + 1), ?_, by omega, fun j hj => h3 j (Nat.zero_le j) hj, ?_⟩
    · rw [iterate, if_neg (by omega), hm]
    · rcases h4 with h4 | h4
      · exact Or.inl h4
      · exact Or.inr (by omega)
  · decide

/-- Witness for C1: at `z0 = 0`, `C = 2`, `n = 2`, `zmax = 4`, `niter = 256`
the hypothesis `1 ≤ niter` holds and the characterisation applies. -/
theorem iterate_escape_characterisation_witness :
    (1 : ℤ) ≤ 256 ∧
    ∃ R : ℕ, iterate ⟨0, 0⟩ ⟨2, 0⟩ 2 4 256 = some R ∧
      (R : ℤ) ≤ 256 - 1 ∧
      (∀ j : ℕ, j < R → Cx.abs2 (orbit ⟨0, 0⟩ ⟨2, 0⟩ 2 (j + 1)) ≤ 4 ^ 2) ∧
      (4 ^ 2 < Cx.abs2 (orbit ⟨0, 0⟩ ⟨2, 0⟩ 2 (R + 1)) ∨ (R : ℤ) = 256 - 1) :=
  ⟨by decide, iterate_escape_characterisation.1 ⟨0, 0⟩ ⟨2, 0⟩ 2 4 256 (by decide)⟩

/-- C10: the returned value is the loop index.  With `niter ≥ 1` the loop body
runs and `iterate` terminates with a defined index; with `niter ≤ 0` the loop
body never binds the index and the function has no defined result, modelled
as `none`. -/
theorem iterate_defined_iff_cap_positive :
    ∀ (z C : Cx) (n : ℕ) (zmax : ℚ) (niter : ℤ),
      (1 ≤ niter → ∃ k, iterate z C n zmax niter = some k) ∧
      (niter ≤ 0 → iterate z C n zmax niter = none) := by
  intro z C n zmax niter
  constructor
  · intro h
    exact ⟨_, by rw [iterate, if_neg (by omega)]⟩
  · intro h
    rw [iterate, if_pos h]

/-- Witness for C10: the positive branch at `niter = 5` and the non-positive
branch at `niter = -3`. -/
theorem iterate_defined_iff_cap_positive_witness :
    ((1 : ℤ) ≤ 5 ∧ ∃ k, iterate ⟨0, 0⟩ ⟨0, 0⟩ 2 4 5 = some k) ∧
    ((-3 : ℤ) ≤ 0 ∧ iterate ⟨0, 0⟩ ⟨0, 0⟩ 2 4 (-3) = none) :=
  ⟨⟨by decide, (iterate_defined_iff_cap_positive ⟨0, 0⟩ ⟨0, 0⟩ 2 4 5).1 (by decide)⟩,
   ⟨by decide, (iterate_defined_iff_cap_positive ⟨0, 0⟩ ⟨0, 0⟩ 2 4 (-3)).2 (by decide)⟩⟩


theorem grid_get (xlim ylim : ℚ × ℚ) (nx ny i j : ℕ) (hi : i < nx) (hj : j < ny) :
    ((complex_grid xlim ylim nx ny)[j]?.bind fun row => row[i]?) =
      some (Cx.mk (linspaceVal xlim.1 xlim.2 nx i) (linspaceVal ylim.1 ylim.2 ny j)) := by
  unfold complex_grid
  rw [List.getElem?_map, List.getElem?_range hj, Option.map_some', Option.some_bind,
    List.getElem?_map, List.getElem?_range hi, Option.map_some']

theorem map2d_row_length (f : Cx → Option ℕ) (zz : List (List Cx)) (j : ℕ) :
    ((zz.map (List.map f))[j]?.map List.length) = (zz[j]?.map List.length) := by
  rw [List.getElem?_map]
  cases zz[j]? <;> simp

theorem map2d_get (f : Cx → Option ℕ) (zz : List (List Cx)) (j i : ℕ) (g : Cx)
    (h : (zz[j]?.bind fun r => r[i]?) = some g) :
    ((zz.map (List.map f))[j]?.bind fun r => r[i]?) = some (f g) := by
  rw [List.getElem?_map]
  cases hz : zz[j]? with
  | none => rw [hz] at h; simp at h
  | some row =>
    rw [hz] at h
    rw [Option.some_bind] at h
    rw [Option.map_some', Option.some_bind, List.getElem?_map, h, Option.map_some']

/-- C6: for a proper rectangle and at least two samples per axis, the grid
entry in column `i`, row `j` is
`(xmin + i*(xmax-xmin)/(width-1)) + 1j*(ymin + j*(ymax-ymin)/(height-1))`;
in particular the 3-by-3 grid on `[-1,1] × [-1,1]` has the four corners
`(-1,-1), (1,-1), (-1,1), (1,1)` and centre `(0,0)`. -/
theorem complex_grid_linear_map :
    (∀ (a b c d : ℚ) (nx ny i j : ℕ), a < b → c < d → 2 ≤ nx → 2 ≤ ny →
      i < nx → j < ny →
      ((complex_grid (a, b) (c, d) nx ny)[j]?.bind fun row => row[i]?) =
        some (Cx.mk (a + i * (b - a) / ((nx : ℚ) - 1)) (c + j * (d - c) / ((ny : ℚ) - 1)))) ∧
    (((complex_grid (-1, 1) (-1, 1) 3 3)[0]?.bind fun row => row[0]?) =
        some (Cx.mk (-1) (-1)) ∧
      ((complex_grid (-1, 1) (-1, 1) 3 3)[0]?.bind fun row => row[2]?) =
        some (Cx.mk 1 (-1)) ∧
      ((complex_grid (-1, 1) (-1, 1) 3 3)[2]?.bind fun row => row[0]?) =
        some (Cx.mk (-1) 1) ∧
      ((complex_grid (-1, 1) (-1, 1) 3 3)[2]?.bind fun row => row[2]?) =
        some (Cx.mk 1 1) ∧
      ((complex_grid (-1, 1) (-1, 1) 3 3)[1]?.bind fun row => row[1]?) =
        some (Cx.mk 0 0)) := by
  constructor
  · intro a b c d nx ny i j _ _ _ _ hi hj
    rw [grid_get (a, b) (c, d) nx ny i j hi hj]
    rfl
  · refine ⟨by decide, by decide, by decide, by decide, by decide⟩

/-- Witness for C6: the general mapping applied at the corner `i = 2, j = 2`
of the 3-by-3 grid on `[-1,1] × [-1,1]`. -/
theorem complex_grid_linear_map_witness :
    ((-1 : ℚ) < 1 ∧ (2 : ℕ) ≤ 3 ∧ (2 : ℕ) < 3) ∧
    ((complex_grid (-1, 1) (-1, 1) 3 3)[2]?.bind fun row => row[2]?) =
      some (Cx.mk (-1 + 2 * (1 - -1) / ((3 : ℚ) - 1)) (-1 + 2 * (1 - -1) / ((3 : ℚ) - 1))) :=
  ⟨⟨by decide, by decide, by decide⟩,
    complex_grid_linear_map.1 (-1) 1 (-1) 1 3 3 2 2 (by decide) (by decide) (by decide)
      (by decide) (by decide) (by decide)⟩

/-- C2: whole-grid evaluation dispatches on the mode string --- in Julia mode
the matrix entry at `(j, i)` is `iterate(g, C, n, zmax, niter)` for the grid
point `g` at `(j, i)` with the parameter `C` fixed, in Mandelbrot mode it is
`iterate(C, g, n, zmax, niter)` with the parameter as the fixed start and the
grid point as the additive constant --- and the matrix has the same shape as
the grid. -/
theorem compute_image_mode_dispatch :
    ∀ (s : AppState) (img : List (List (Option ℕ))),
      (s.mode = "Julia" → compute_image s = some img →
        img.length = (gridOf s).length ∧
        (∀ j : ℕ, (img[j]?.map List.length) = ((gridOf s)[j]?.map List.length)) ∧
        (∀ (j i : ℕ) (g : Cx), ((gridOf s)[j]?.bind fun r => r[i]?) = some g →
          (img[j]?.bind fun r => r[i]?) =
            some (iterate g (Cparam s) (qnat (s.value EntryName.n))
              (s.value EntryName.zmax) (qint (s.value EntryName.niter))))) ∧
      (s.mode = "Mandelbrot" → compute_image s = some img →
        img.length = (gridOf s).length ∧
        (∀ j : ℕ, (img[j]?.map List.length) = ((gridOf s)[j]?.map List.length)) ∧
        (∀ (j i : ℕ) (g : Cx), ((gridOf s)[j]?.bind fun r => r[i]?) = some g →
          (img[j]?.bind fun r => r[i]?) =
            some (iterate (Cparam s) g (qnat (s.value EntryName.n))
              (s.value EntryName.zmax) (qint (s.value EntryName.niter))))) := by
  intro s img
  constructor
  · intro hm hc
    rw [compute_image, hm, if_pos rfl] at hc
    obtain rfl := (Option.some.inj hc).symm
    refine ⟨List.length_map _ _, fun j => map2d_row_length _ _ j, fun j i g hg => ?_⟩
    exact map2d_get _ _ j i g hg
  · intro hm hc
    rw [compute_image, hm, if_neg (by decide), if_pos rfl] at hc
    obtain rfl := (Option.some.inj hc).symm
    refine ⟨List.length_map _ _, fun j => map2d_row_length _ _ j, fun j i g hg => ?_⟩
    exact map2d_get _ _ j i g hg

/-- Witness for C2: on the tiny Julia-mode state the matrix entry at `(0,0)`
is `iterate` of the grid point `(-1, -1)` with the fixed parameter `C`. -/
theorem compute_image_mode_dispatch_witness :
    (smallState.mode = "Julia" ∧ compute_image smallState = some smallImg) ∧
    (smallImg[0]?.bind fun r => r[0]?) =
      some (iterate (Cx.mk (-1) (-1)) (Cparam smallState)
        (qnat (smallState.value EntryName.n)) (smallState.value EntryName.zmax)
        (qint (smallState.value EntryName.niter))) :=
  ⟨⟨rfl, by decide⟩,
    ((compute_image_mode_dispatch smallState smallImg).1 rfl (by decide)).2.2 0 0
      (Cx.mk (-1) (-1)) (by decide)⟩

@[simp] theorem value_setVal (s : AppState) (f g : EntryName) (v : ℚ) :
    (setVal s f v).value g = if g = f then v else s.value g := rfl

@[simp] theorem text_setVal (s : AppState) (f g : EntryName) (v : ℚ) :
    (setVal s f v).text g = s.text g := rfl

@[simp] theorem value_setText (s : AppState) (f g : EntryName) (t : String) :
    (setText s f t).value g = s.value g := rfl

@[simp] theorem defaultVal_setVal (s : AppState) (f : EntryName) (v : ℚ) :
    (setVal s f v).defaultVal = s.defaultVal := rfl

@[simp] theorem defaultVal_setText (s : AppState) (f : EntryName) (t : String) :
    (setText s f t).defaultVal = s.defaultVal := rfl

@[simp] theorem defaultVal_set_entry_value (s : AppState) (f : EntryName) :
    (set_entry_value s f).defaultVal = s.defaultVal := rfl

@[simp] theorem defaultVal_set_all_texts (s : AppState) :
    (set_all_texts s).defaultVal = s.defaultVal := rfl

@[simp] theorem defaultVal_update_values (s : AppState) :
    (update_values s).defaultVal = s.defaultVal := rfl

@[simp] theorem defaultVal_update_image (s : AppState) :
    ((update_image s).1).defaultVal = s.defaultVal := rfl

@[simp] theorem value_set_all_texts (s : AppState) (f : EntryName) :
    (set_all_texts s).value f = s.value f := rfl

theorem defaultVal_release_bounds (s : AppState) (button : ℕ) (ex ey : ℚ) :
    (release_bounds s button ex ey).defaultVal = s.defaultVal := by
  rw [release_bounds]
  split
  · split <;> rfl
  · rfl

theorem defaultVal_step (s : AppState) (e : UIEvent) :
    (step s e).defaultVal = s.defaultVal := by
  cases e with
  | edit f t => rfl
  | apply => rfl
  | reset => rfl
  | modeChange t =>
    show ((update_image _).1).defaultVal = _
    rw [defaultVal_update_image]
    split <;> rfl
  | cmapChange t => rfl
  | press ex ey => rfl
  | motion ex ey p c =>
    show (if _ then _ else _ : AppState).defaultVal = _
    split <;> rfl
  | release b ex ey =>
    show ((update_image _).1).defaultVal = _
    rw [defaultVal_update_image]
    split
    · rw [defaultVal_set_all_texts, defaultVal_release_bounds]
    · rw [defaultVal_release_bounds]

theorem defaultVal_run (s : AppState) (evs : List UIEvent) :
    (run s evs).defaultVal = s.defaultVal := by
  induction evs generalizing s with
  | nil => rfl
  | cons e evs ih =>
    have h : run s (e :: evs) = run (step s e) evs := rfl
    rw [h, ih, defaultVal_step]

/-- C8: after the startup capture of defaults and an arbitrary sequence of
user events (entry edits, Apply, Reset, combo changes and pointer gestures),
the Reset handler restores every one of the eleven stored parameter fields to
exactly its startup-captured value. -/
theorem reset_restores_startup_values :
    ∀ (s : AppState) (evs : List UIEvent) (f : EntryName),
      ((on_button_reset_clicked (run (capture_defaults s) evs)).1).value f = s.value f := by
  intro s evs f
  show (run (capture_defaults s) evs).defaultVal f = s.value f
  rw [defaultVal_run]
  rfl

/-- C9: switching the active mode to Mandelbrot sets the `x` and `y` fields
(the components of `C`) to `0` unconditionally, whatever values they held. -/
theorem mandelbrot_switch_zeroes_C :
    ∀ s : AppState,
      ((on_namecombo_changed s ("Mandelbrot")).1).value EntryName.x = 0 ∧
      ((on_namecombo_changed s ("Mandelbrot")).1).value EntryName.y = 0 := by
  intro s
  constructor <;> rfl

/-- C5 counterexample: handling the Reset event performs no re-evaluation of
the fractal engine (its `display_image` count is `0`, not `1`). -/
theorem reset_triggers_no_evaluation :
    (on_button_reset_clicked baseState).2 ≠ 1 := by decide

/-- C5 amended: handling Apply (parameter edit), a mode switch, or a pointer
release each synchronously performs exactly one whole-grid evaluation before
redisplay, but the Reset handler performs none --- it only restores the
fields and entry texts. -/
theorem event_evaluation_counts :
    ∀ (s : AppState) (t : String) (button : ℕ) (ex ey : ℚ),
      (on_button_apply_clicked s).2 = 1 ∧
      (on_namecombo_changed s t).2 = 1 ∧
      (on_canvas_button_release s button ex ey).2 = 1 ∧
      (on_button_reset_clicked s).2 = 0 := by
  intro s t button ex ey
  exact ⟨rfl, rfl, rfl, rfl⟩

/-- C7: when an entry's text does not parse as a number, the set operation
reports failure (`None`) and `update_image` leaves the field's previously
stored value unchanged. -/
theorem parse_failure_preserves_field :
    ∀ (s : AppState) (f : EntryName),
      pyFloat (s.text f) = none →
      get_entry_value (s.text f) (isIntEntry f) = none ∧
      ((update_image s).1).value f = s.value f := by
  intro s f h
  have hg : get_entry_value (s.text f) (isIntEntry f) = none := by
    rw [get_entry_value, h]
  refine ⟨hg, ?_⟩
  show (update_values s).value f = s.value f
  rw [update_values]
  simp only [hg]

/-- Witness for C7: the text `abc` in the `n` entry fails to parse and the
stored value of `n` survives `update_image` unchanged. -/
theorem parse_failure_preserves_field_witness :
    pyFloat ((setText baseState EntryName.n ("abc")).text EntryName.n) = none ∧
    get_entry_value ((setText baseState EntryName.n ("abc")).text EntryName.n)
        (isIntEntry EntryName.n) = none ∧
    ((update_image (setText baseState EntryName.n ("abc"))).1).value EntryName.n =
      (setText baseState EntryName.n ("abc")).value EntryName.n :=
  ⟨by decide,
    parse_failure_preserves_field (setText baseState EntryName.n ("abc")) EntryName.n
      (by decide)⟩

/-- C3 counterexample: with button 1, a drag whose press plane coordinate is
`(1, 1)` and whose release plane coordinate is `(0, 0)` yields
`xmin = posx1 = 1`, not the bounding-box value `min(1, 0) = 0`: the handler
assigns the endpoints without reordering. -/
theorem box_zoom_not_bounding_box :
    (release_bounds dragState 1 5 5).value EntryName.xmin ≠
      min dragState.posx1 dragState.posx2 := by
  decide

/-- C3 amended: for button 1 or 3, a non-zero drag installs the rectangle
`xmin = posx1`, `xmax = posx2`, `ymin = posy1`, `ymax = posy2` --- press
coordinates into the min fields and release coordinates into the max fields,
with no min/max normalisation; this equals the axis-aligned bounding box of
the two points only when `posx1 ≤ posx2` and `posy1 ≤ posy2`. -/
theorem box_zoom_assigns_endpoints :
    ∀ (s : AppState) (button : ℕ) (ex ey : ℚ),
      (button = 1 ∨ button = 3) →
      ¬(s.posx1 = s.posx2 ∧ s.posy1 = s.posy2) →
      (release_bounds s button ex ey).value EntryName.xmin = s.posx1 ∧
      (release_bounds s button ex ey).value EntryName.xmax = s.posx2 ∧
      (release_bounds s button ex ey).value EntryName.ymin = s.posy1 ∧
      (release_bounds s button ex ey).value EntryName.ymax = s.posy2 := by
  intro s button ex ey hb hne
  simp only [release_bounds, if_pos hb, if_neg hne, value_setVal]
  refine ⟨?_, ?_, ?_, ?_⟩ <;> simp

/-- Witness for C3 (amended): the drag recorded in `dragState` with button 1
installs exactly its endpoint coordinates. -/
theorem box_zoom_assigns_endpoints_witness :
    ((1 : ℕ) = 1 ∨ (1 : ℕ) = 3) ∧
    ¬(dragState.posx1 = dragState.posx2 ∧ dragState.posy1 = dragState.posy2) ∧
    ((release_bounds dragState 1 5 5).value EntryName.xmin = dragState.posx1 ∧
      (release_bounds dragState 1 5 5).value EntryName.xmax = dragState.posx2 ∧
      (release_bounds dragState 1 5 5).value EntryName.ymin = dragState.posy1 ∧
      (release_bounds dragState 1 5 5).value EntryName.ymax = dragState.posy2) :=
  ⟨Or.inl rfl, by decide,
    box_zoom_assigns_endpoints dragState 1 5 5 (Or.inl rfl) (by decide)⟩

/-- C4: a release with zero drag and button 1 (respectively 3) scales the
rectangle's width and height by exactly `0.75` (respectively `1.5`) and
centres the new rectangle at the plane coordinate of the click computed under
the pre-zoom rectangle. -/
theorem click_zoom_scaling :
    ∀ (s : AppState) (button : ℕ) (ex ey : ℚ),
      (button = 1 ∨ button = 3) →
      s.posx1 = s.posx2 → s.posy1 = s.posy2 →
      (release_bounds s button ex ey).value EntryName.xmax -
          (release_bounds s button ex ey).value EntryName.xmin =
        (if button = 1 then (3 : ℚ) / 4 else 3 / 2) *
          (s.value EntryName.xmax - s.value EntryName.xmin) ∧
      (release_bounds s button ex ey).value EntryName.ymax -
          (release_bounds s button ex ey).value EntryName.ymin =
        (if button = 1 then (3 : ℚ) / 4 else 3 / 2) *
          (s.value EntryName.ymax - s.value EntryName.ymin) ∧
      (release_bounds s button ex ey).value EntryName.xmin +
          (release_bounds s button ex ey).value EntryName.xmax =
        2 * pixel_to_plane_x s ex ∧
      (release_bounds s button ex ey).value EntryName.ymin +
          (release_bounds s button ex ey).value EntryName.ymax =
        2 * pixel_to_plane_y s ey := by
  intro s button ex ey hb h1 h2
  simp only [release_bounds, if_pos hb, if_pos (And.intro h1 h2), value_setVal]
  refine ⟨?_, ?_, ?_, ?_⟩ <;> simp <;> ring

/-- Witness for C4: a button-1 click at pixel `(300, 300)` on `baseState`
(no drag in progress). -/
theorem click_zoom_scaling_witness :
    (((1 : ℕ) = 1 ∨ (1 : ℕ) = 3) ∧ baseState.posx1 = baseState.posx2 ∧
      baseState.posy1 = baseState.posy2) ∧
    ((release_bounds baseState 1 300 300).value EntryName.xmax -
        (release_bounds baseState 1 300 300).value EntryName.xmin =
      (if (1 : ℕ) = 1 then (3 : ℚ) / 4 else 3 / 2) *
        (baseState.value EntryName.xmax - baseState.value EntryName.xmin) ∧
    (release_bounds baseState 1 300 300).value EntryName.ymax -
        (release_bounds baseState 1 300 300).value EntryName.ymin =
      (if (1 : ℕ) = 1 then (3 : ℚ) / 4 else 3 / 2) *
        (baseState.value EntryName.ymax - baseState.value EntryName.ymin) ∧
    (release_bounds baseState 1 300 300).value EntryName.xmin +
        (release_bounds baseState 1 300 300).value EntryName.xmax =
      2 * pixel_to_plane_x baseState 300 ∧
    (release_bounds baseState 1 300 300).value EntryName.ymin +
        (release_bounds baseState 1 300 300).value EntryName.ymax =
      2 * pixel_to_plane_y baseState 300) :=
  ⟨⟨Or.inl rfl, rfl, rfl⟩,
    click_zoom_scaling baseState 1 300 300 (Or.inl rfl) rfl rfl⟩
